import Mathlib

/-!
Verification development for the Snake/Tetris game-logic core of the
`my-first-repo` React repository.  The two game engines are embedded
shallowly:

* the Tetris component (`TetrisGame`) becomes pure functions over a
  `Board` (a list of rows of `Cell`s) and a `TetrisState` record; the
  only source of randomness there, `getRandomPiece`, is replaced by an
  explicit `next : Piece` argument supplied to each transition that may
  spawn a piece;
* the Snake component (`SnakeGame`) becomes a pure step function
  `Snake.moveSnake` over a `SnakeState`; every call to `Math.random`
  is replaced by a field of a `SnakeOracle` argument (the new food
  position, the spawn-probability coin flips, the shuffled obstacle
  candidate list, and the power-up type / candidate positions).

All numbers are embedded as `Int` (grid coordinates can go negative
during a Tetris spawn or a Snake wall hit) or `Nat` (ages, scores,
lengths); cell contents compare against the empty marker exactly as the
JavaScript compares against `0`.
-/

namespace Tetris

/-- Cells of the Tetris board: the JavaScript stores `0` for an empty
cell and the piece's CSS color string for a filled one. -/
inductive Cell where
  | empty
  | filled (color : String)
deriving DecidableEq, Repr

abbrev Board := List (List Cell)

def BOARD_WIDTH : Nat := 15
def BOARD_HEIGHT : Nat := 15

/-- The seven canonical tetromino types. -/
inductive Tetromino where
  | I | O | T | S | Z | J | L
deriving DecidableEq, Repr

/-- Shape matrices of `TETROMINOES` (1 = filled block, 0 = empty). -/
def tetShape : Tetromino → List (List Nat)
  | .I => [[0, 0, 0, 0],
           [1, 1, 1, 1],
           [0, 0, 0, 0],
           [0, 0, 0, 0]]
  | .O => [[1, 1],
           [1, 1]]
  | .T => [[0, 1, 0],
           [1, 1, 1],
           [0, 0, 0]]
  | .S => [[0, 1, 1],
           [1, 1, 0],
           [0, 0, 0]]
  | .Z => [[1, 1, 0],
           [0, 1, 1],
           [0, 0, 0]]
  | .J => [[1, 0, 0],
           [1, 1, 1],
           [0, 0, 0]]
  | .L => [[0, 0, 1],
           [1, 1, 1],
           [0, 0, 0]]

/-- Color strings of `TETROMINOES`. -/
def tetColor : Tetromino → String
  | .I => "#00f0f0"
  | .O => "#f0f000"
  | .T => "#a000f0"
  | .S => "#00f000"
  | .Z => "#f00000"
  | .J => "#0000f0"
  | .L => "#f0a000"

/-- Active piece: shape matrix, color tag and grid origin (`x`, `y` may
be negative while a piece overhangs the top edge). -/
structure Piece where
  kind : Tetromino
  shape : List (List Nat)
  color : String
  x : Int
  y : Int
deriving DecidableEq, Repr

/-- Deterministic core of `getRandomPiece`: the uniformly random choice
of tetromino type is the `t` argument; origin is horizontal center minus
half the shape width, at `y = 0`. -/
def spawnPiece (t : Tetromino) : Piece :=
  { kind := t
    shape := tetShape t
    color := tetColor t
    x := Int.ofNat (BOARD_WIDTH / 2) - Int.ofNat (((tetShape t).headD []).length / 2)
    y := 0 }

/-- Helper `createEmptyBoard`: `BOARD_HEIGHT` rows of `BOARD_WIDTH`
empty cells. -/
def createEmptyBoard : Board :=
  List.replicate BOARD_HEIGHT (List.replicate BOARD_WIDTH Cell.empty)

/-- Entry of a shape matrix at row `yi`, column `xi` (0 outside the
matrix, where the JavaScript loops never look). -/
def shapeCell (shape : List (List Nat)) (yi xi : Nat) : Nat :=
  (shape.getD yi []).getD xi 0

/-- Cell of the board at (possibly signed) coordinates; only consulted
with both coordinates already checked non-negative and in range. -/
def cellAt (board : Board) (bX bY : Int) : Cell :=
  (board.getD bY.toNat []).getD bX.toNat Cell.empty

/-- Per-cell check of `isValidMove`: in horizontal bounds, above the
floor, and (once the cell is on the visible board, `bY ≥ 0`) landing on
an empty grid cell.  Negative `bY` skips the occupancy check. -/
def cellFree (board : Board) (bX bY : Int) : Bool :=
  if bX < 0 ∨ (BOARD_WIDTH : Int) ≤ bX ∨ (BOARD_HEIGHT : Int) ≤ bY then false
  else if 0 ≤ bY ∧ cellAt board bX bY ≠ Cell.empty then false
  else true

/-- The placement validity predicate `isValidMove(piece, newX, newY,
newShape)`: every filled cell of the shape must pass `cellFree` at its
board coordinates. -/
def isValidMove (board : Board) (shape : List (List Nat)) (newX newY : Int) : Bool :=
  (List.range shape.length).all fun yi =>
    (List.range ((shape.getD yi []).length)).all fun xi =>
      if shapeCell shape yi xi ≠ 0 then
        cellFree board (newX + (xi : Int)) (newY + (yi : Int))
      else true

/-- The 90° clockwise rotation `rotatePiece`: for each column index of
the first row, read that column top-to-bottom and reverse it. -/
def rotatePiece (shape : List (List Nat)) : List (List Nat) :=
  (List.range ((shape.headD []).length)).map fun idx =>
    (shape.map fun row => row.getD idx 0).reverse

/-- Overwrite one board cell (callers always pass in-range coordinates,
matching the validated piece positions of the component). -/
def setCell (b : Board) (x y : Nat) (c : Cell) : Board :=
  b.set y ((b.getD y []).set x c)

/-- First half of `placePiece`: stamp every filled cell of the current
piece with the piece color, skipping rows still above the top edge
(`boardY < 0`). -/
def lockPiece (b : Board) (p : Piece) : Board :=
  p.shape.enum.foldl
    (fun acc (yrow : Nat × List Nat) =>
      yrow.2.enum.foldl
        (fun acc2 (xv : Nat × Nat) =>
          if xv.2 ≠ 0 then
            if 0 ≤ p.y + (yrow.1 : Int) then
              setCell acc2 (p.x + (xv.1 : Int)).toNat (p.y + (yrow.1 : Int)).toNat
                (Cell.filled p.color)
            else acc2
          else acc2)
        acc)
    b

/-- Row completeness test used by the line scan: every cell non-empty
(`cell !== 0`). -/
def rowFull (row : List Cell) : Bool :=
  row.all fun c => c ≠ Cell.empty

/-- Indices of completed lines, scanned bottom-to-top exactly like the
`for (let y = BOARD_HEIGHT - 1; y >= 0; y--)` loop. -/
def completedLines (b : Board) : List Nat :=
  ((List.range BOARD_HEIGHT).reverse).filter fun y => rowFull (b.getD y [])

/-- Line-clear step of `placePiece`: when some lines are complete, drop
them, prepend as many empty rows, and report `100` points per line;
otherwise the board is left untouched and no points are awarded. -/
def clearLines (b : Board) : Board × Nat :=
  let completed := completedLines b
  if 0 < completed.length then
    (List.replicate completed.length (List.replicate BOARD_WIDTH Cell.empty) ++
       ((b.enum.filter fun p => ¬ completed.contains p.1).map Prod.snd),
     completed.length * 100)
  else (b, 0)

/-- Component state of `TetrisGame` (board, current piece, score and
flags). -/
structure TetrisState where
  board : Board
  piece : Option Piece
  score : Nat
  gameOver : Bool
  paused : Bool
deriving DecidableEq, Repr

/-- The `placePiece` callback: lock the current piece, clear completed
lines and add their score, then spawn `next` (standing for the random
`getRandomPiece()` result).  The spawn validity check runs against the
pre-lock `board` closure, exactly as in the component, and a failed
spawn sets `gameOver` while keeping the old piece. -/
def placePiece (next : Piece) (s : TetrisState) : TetrisState :=
  match s.piece with
  | none => s
  | some p =>
      let newBoard := lockPiece s.board p
      let cleared := clearLines newBoard
      if isValidMove s.board next.shape next.x next.y then
        { s with board := cleared.1, score := s.score + cleared.2, piece := some next }
      else
        { s with board := cleared.1, score := s.score + cleared.2, gameOver := true }

/-- The gravity step `moveDown`: try `(x, y+1)`; if blocked, lock via
`placePiece`. -/
def moveDown (next : Piece) (s : TetrisState) : TetrisState :=
  match s.piece with
  | none => s
  | some p =>
      if s.gameOver = true ∨ s.paused = true then s
      else if isValidMove s.board p.shape p.x (p.y + 1) then
        { s with piece := some { p with y := p.y + 1 } }
      else placePiece next s

/-- The `handleKeyPress` input mapper of `TetrisGame` (arrow moves,
spacebar rotation, `p`/`P` pause); every structural intent is validated
by `isValidMove` before commit. -/
def handleKeyPress (next : Piece) (key : String) (s : TetrisState) : TetrisState :=
  match s.piece with
  | none => s
  | some p =>
      if s.gameOver = true ∨ s.paused = true then s
      else if key = "ArrowLeft" then
        if isValidMove s.board p.shape (p.x - 1) p.y then
          { s with piece := some { p with x := p.x - 1 } }
        else s
      else if key = "ArrowRight" then
        if isValidMove s.board p.shape (p.x + 1) p.y then
          { s with piece := some { p with x := p.x + 1 } }
        else s
      else if key = "ArrowDown" then moveDown next s
      else if key = " " then
        if isValidMove s.board (rotatePiece p.shape) p.x p.y then
          { s with piece := some { p with shape := rotatePiece p.shape } }
        else s
      else if key = "p" ∨ key = "P" then { s with paused := !s.paused }
      else s

/-- The `restartGame` click handler: fresh empty board, no piece, score
zero, flags cleared. -/
def restartGame : TetrisState :=
  { board := createEmptyBoard
    piece := none
    score := 0
    gameOver := false
    paused := false }

/-- Initial state of the C3 scenario: empty board with an I-piece
freshly spawned (its spawn origin computes to `x = 5`, `y = 0`). -/
def tetrisInitI : TetrisState :=
  { board := createEmptyBoard
    piece := some (spawnPiece .I)
    score := 0
    gameOver := false
    paused := false }

end Tetris

namespace Snake

def BOARD_SIZE : Nat := 20
def OBSTACLE_LIFETIME : Nat := 80
def MAX_OBSTACLES : Nat := 6
def POWERUP_LIFETIME : Nat := 50
def MAX_POWERUPS : Nat := 2
def POWERUP_EFFECT_DURATION : Int := 100

/-- Grid coordinate pair (signed: a head one step past a wall has a
coordinate of `-1` or `BOARD_SIZE`). -/
structure Pos where
  x : Int
  y : Int
deriving DecidableEq, Repr

/-- The four keys of `POWERUP_TYPES`. -/
inductive PowerUpType where
  | slowMotion | scoreBoost | speedBoost | invincibility
deriving DecidableEq, Repr

/-- The `effect` tags of `POWERUP_TYPES`. -/
inductive Effect where
  | gameSpeed | scoreMultiplier | invincible
deriving DecidableEq, Repr

/-- Mapping from power-up type to its `effect` field. -/
def powerUpEffect : PowerUpType → Effect
  | .slowMotion => .gameSpeed
  | .scoreBoost => .scoreMultiplier
  | .speedBoost => .gameSpeed
  | .invincibility => .invincible

/-- An obstacle token on the board (`{x, y, age}`). -/
structure Obstacle where
  x : Int
  y : Int
  age : Nat
deriving DecidableEq, Repr

/-- A power-up token on the board (`{x, y, type, age}`). -/
structure PowerUp where
  x : Int
  y : Int
  type : PowerUpType
  age : Nat
deriving DecidableEq, Repr

/-- An entry of the active-effects list (`{type, timeLeft}`). -/
structure ActiveEffect where
  type : PowerUpType
  timeLeft : Int
deriving DecidableEq, Repr

/-- Component state of `SnakeGame`. -/
structure SnakeState where
  snake : List Pos
  food : Pos
  direction : Pos
  gameStarted : Bool
  gameOver : Bool
  paused : Bool
  score : Nat
  deathReason : Option String
  collisionPoint : Option Pos
  obstacles : List Obstacle
  powerUps : List PowerUp
  activePowerUps : List ActiveEffect
deriving DecidableEq, Repr

/-- Stand-in for every `Math.random()` draw consumed by one tick:
the position returned by `generateFood`'s rejection sampling, the two
spawn-probability coin flips, the shuffled ring-candidate list scanned
by `generateObstacle`, and the type and candidate positions tried by
`generatePowerUp`. -/
structure SnakeOracle where
  newFood : Pos
  spawnObstacle : Bool
  obstacleCands : List Pos
  spawnPowerUp : Bool
  powerUpKind : PowerUpType
  powerUpCands : List Pos
deriving Repr

/-- Test for an active invincibility effect
(`activePowerUps.some(p => POWERUP_TYPES[p.type].effect === 'invincible')`). -/
def isInvincible (s : SnakeState) : Bool :=
  s.activePowerUps.any fun e => powerUpEffect e.type = Effect.invincible

/-- Food score multiplier: `2` when a `scoreMultiplier` effect is
active, `1` otherwise. -/
def scoreMult (s : SnakeState) : Nat :=
  if s.activePowerUps.any (fun e => powerUpEffect e.type = Effect.scoreMultiplier) then 2 else 1

/-- New head position before any wall handling (`head + direction`). -/
def rawHead (h d : Pos) : Pos :=
  ⟨h.x + d.x, h.y + d.y⟩

/-- Wall-collision test (`head.x < 0 || head.x >= BOARD_SIZE || head.y < 0
|| head.y >= BOARD_SIZE`). -/
def outOfBounds (p : Pos) : Bool :=
  p.x < 0 ∨ (BOARD_SIZE : Int) ≤ p.x ∨ p.y < 0 ∨ (BOARD_SIZE : Int) ≤ p.y

/-- Invincible wrap-around: the first matching branch of the
`if/else if` chain fixes exactly one coordinate. -/
def wrapPos (p : Pos) : Pos :=
  if p.x < 0 then { p with x := (BOARD_SIZE : Int) - 1 }
  else if (BOARD_SIZE : Int) ≤ p.x then { p with x := 0 }
  else if p.y < 0 then { p with y := (BOARD_SIZE : Int) - 1 }
  else if (BOARD_SIZE : Int) ≤ p.y then { p with y := 0 }
  else p

/-- Wall tag chosen for the death reason (first matching branch). -/
def wallName (p : Pos) : String :=
  if p.x < 0 then "left wall"
  else if (BOARD_SIZE : Int) ≤ p.x then "right wall"
  else if p.y < 0 then "top wall"
  else if (BOARD_SIZE : Int) ≤ p.y then "bottom wall"
  else ""

/-- Chebyshev distance between two grid positions. -/
def chebyshev (a b : Pos) : Nat :=
  max (a.x - b.x).natAbs (a.y - b.y).natAbs

/-- The `isValidPosition` filter inside `generateObstacle`: not on the
snake, food, an obstacle or a power-up; Chebyshev distance from the
head strictly greater than 2; Chebyshev distance from every snake
segment strictly greater than 1. -/
def isValidObstaclePos (snake : List Pos) (food : Pos) (obstacles : List Obstacle)
    (powerUps : List PowerUp) (head : Pos) (c : Pos) : Bool :=
  !(snake.any (fun seg => seg.x = c.x ∧ seg.y = c.y) ||
    decide (food.x = c.x ∧ food.y = c.y) ||
    obstacles.any (fun ob => ob.x = c.x ∧ ob.y = c.y) ||
    powerUps.any (fun p => p.x = c.x ∧ p.y = c.y) ||
    decide ((head.x - c.x).natAbs ≤ 2 ∧ (head.y - c.y).natAbs ≤ 2) ||
    snake.any (fun seg => (seg.x - c.x).natAbs ≤ 1 ∧ (seg.y - c.y).natAbs ≤ 1))

/-- The scan of `generateObstacle` over the shuffled weighted ring
candidates (`cands`); the attempt budget lets exactly the first 100
candidates be tested, and the first one passing `isValidPosition`
becomes a fresh obstacle of age 0. -/
def generateObstacle (cands : List Pos) (snake : List Pos) (food : Pos)
    (obstacles : List Obstacle) (powerUps : List PowerUp) : Option Obstacle :=
  match snake with
  | [] => none
  | head :: _ =>
      ((cands.take 100).find? (isValidObstaclePos snake food obstacles powerUps head)).map
        fun c => { x := c.x, y := c.y, age := 0 }

/-- Position filter of `generatePowerUp`: not on the snake, the food,
an obstacle or another power-up. -/
def isFreeForPowerUp (snake : List Pos) (food : Pos) (obstacles : List Obstacle)
    (powerUps : List PowerUp) (c : Pos) : Bool :=
  !(snake.any (fun seg => seg.x = c.x ∧ seg.y = c.y) ||
    decide (food.x = c.x ∧ food.y = c.y) ||
    obstacles.any (fun ob => ob.x = c.x ∧ ob.y = c.y) ||
    powerUps.any (fun p => p.x = c.x ∧ p.y = c.y))

/-- The bounded rejection sampling of `generatePowerUp`: the uniformly
chosen type is `ty`, the random coordinates tried are `cands`, and the
attempt budget checks at most the first 100 candidates. -/
def generatePowerUp (ty : PowerUpType) (cands : List Pos) (snake : List Pos) (food : Pos)
    (obstacles : List Obstacle) (powerUps : List PowerUp) : Option PowerUp :=
  ((cands.take 100).find? (isFreeForPowerUp snake food obstacles powerUps)).map
    fun c => { x := c.x, y := c.y, type := ty, age := 0 }

/-- One tick of the obstacle list: age every obstacle, drop the expired
ones, then (under the population cap, the spawn coin flip and the state
flags captured by the closure — `gameOver` is the pre-tick value even on
a death tick) push the obstacle found by `generateObstacle`, which
itself checks against the pre-tick entity lists. -/
def obstaclesStep (o : SnakeOracle) (s : SnakeState) : List Obstacle :=
  let aged := (s.obstacles.map fun ob => { ob with age := ob.age + 1 }).filter
    fun ob => ob.age < OBSTACLE_LIFETIME
  if aged.length < MAX_OBSTACLES ∧ o.spawnObstacle = true ∧ s.gameStarted = true ∧
      s.gameOver = false ∧ s.paused = false then
    match generateObstacle o.obstacleCands s.snake s.food s.obstacles s.powerUps with
    | some ob => aged ++ [ob]
    | none => aged
  else aged

/-- One tick of the power-up token list: age, expire, and conditionally
spawn, mirroring `obstaclesStep`. -/
def powerUpsStep (o : SnakeOracle) (s : SnakeState) : List PowerUp :=
  let aged := (s.powerUps.map fun p => { p with age := p.age + 1 }).filter
    fun p => p.age < POWERUP_LIFETIME
  if aged.length < MAX_POWERUPS ∧ o.spawnPowerUp = true ∧ s.gameStarted = true ∧
      s.gameOver = false ∧ s.paused = false then
    match generatePowerUp o.powerUpKind o.powerUpCands s.snake s.food s.obstacles s.powerUps with
    | some p => aged ++ [p]
    | none => aged
  else aged

/-- One tick of the active-effects list: decrement every `timeLeft`,
drop the entries that reach zero. -/
def activeStep (l : List ActiveEffect) : List ActiveEffect :=
  (l.map fun e => { e with timeLeft := e.timeLeft - 1 }).filter fun e => 0 < e.timeLeft

/-- Lethal-collision outcome: the snake list is returned unchanged and
the death fields are set; the obstacle / power-up / active-effect
updaters queued by the same `moveSnake` call still run with the
pre-tick flags. -/
def dieWith (o : SnakeOracle) (s : SnakeState) (reason : String) (point : Pos) : SnakeState :=
  { s with
      gameOver := true
      deathReason := some reason
      collisionPoint := some point
      obstacles := obstaclesStep o s
      powerUps := powerUpsStep o s
      activePowerUps := activeStep s.activePowerUps }

/-- Power-up found at the new head position, if any. -/
def pickedUp (s : SnakeState) (head : Pos) : Option PowerUp :=
  s.powerUps.find? fun p => p.x = head.x ∧ p.y = head.y

/-- Committed (non-lethal) move: prepend the new head; on a food hit
award `10 ×` multiplier points, take the oracle's fresh food and keep
the tail, otherwise pop the tail; a power-up under the head moves into
the active list at full duration and its token is filtered out after
the aging pass. -/
def commitMove (o : SnakeOracle) (s : SnakeState) (head : Pos) (body : List Pos) : SnakeState :=
  let ate := head.x = s.food.x ∧ head.y = s.food.y
  { s with
      snake := if ate then head :: body else (head :: body).dropLast
      score := if ate then s.score + 10 * scoreMult s else s.score
      food := if ate then o.newFood else s.food
      obstacles := obstaclesStep o s
      powerUps :=
        match pickedUp s head with
        | some _ => (powerUpsStep o s).filter fun p => ¬(p.x = head.x ∧ p.y = head.y)
        | none => powerUpsStep o s
      activePowerUps :=
        match pickedUp s head with
        | some p => activeStep s.activePowerUps ++ [⟨p.type, POWERUP_EFFECT_DURATION⟩]
        | none => activeStep s.activePowerUps }

/-- Collision phase of the tick, after the wall handling: `head` is the
(possibly wrapped) new head, tested against the full pre-move body and
the obstacle list unless invincible. -/
def moveSnakeAt (o : SnakeOracle) (s : SnakeState) (body : List Pos) (head : Pos) : SnakeState :=
  if (body.any fun seg => seg.x = head.x ∧ seg.y = head.y) ∧ isInvincible s = false then
    dieWith o s "self-collision" head
  else if (s.obstacles.any fun ob => ob.x = head.x ∧ ob.y = head.y) ∧ isInvincible s = false then
    dieWith o s "obstacle-collision" head
  else commitMove o s head body

/-- Wall phase of the tick: an out-of-bounds raw head kills without
invincibility (tagged with the wall name) and wraps with it. -/
def moveSnakeBody (o : SnakeOracle) (s : SnakeState) (head0 : Pos) (rest : List Pos) : SnakeState :=
  if outOfBounds (rawHead head0 s.direction) = true ∧ isInvincible s = false then
    dieWith o s ("wall-" ++ wallName (rawHead head0 s.direction)) (rawHead head0 s.direction)
  else
    moveSnakeAt o s (head0 :: rest)
      (if outOfBounds (rawHead head0 s.direction) = true then wrapPos (rawHead head0 s.direction)
       else rawHead head0 s.direction)

/-- One tick of `moveSnake`: skipped entirely before the first start,
after game over, while paused or with a zero direction; an empty snake
list never occurs in the component (the game starts with one segment
and a tick preserves non-emptiness), and is modelled as a skip. -/
def moveSnake (o : SnakeOracle) (s : SnakeState) : SnakeState :=
  if s.gameStarted = false ∨ s.gameOver = true ∨ s.paused = true ∨
      (s.direction.x = 0 ∧ s.direction.y = 0) then s
  else
    match s.snake with
    | [] => s
    | head0 :: rest => moveSnakeBody o s head0 rest

/-- Death condition of one tick, as checked by the code: no active
invincibility and the raw new head either out of bounds, on the
pre-move body, or on an obstacle.  (Without invincibility the head is
never wrapped, so the raw head is the tested one.) -/
def lethal (s : SnakeState) : Bool :=
  !(isInvincible s) &&
  match s.snake with
  | [] => false
  | head0 :: rest =>
      outOfBounds (rawHead head0 s.direction) ||
      ((head0 :: rest).any fun seg =>
        seg.x = (rawHead head0 s.direction).x ∧ seg.y = (rawHead head0 s.direction).y) ||
      (s.obstacles.any fun ob =>
        ob.x = (rawHead head0 s.direction).x ∧ ob.y = (rawHead head0 s.direction).y)

/-- Head position a committed tick installs: the raw head, wrapped when
it left the board (which a committed tick only survives invincibly). -/
def committedHead (s : SnakeState) : Pos :=
  match s.snake with
  | [] => ⟨0, 0⟩
  | head0 :: _ =>
      if outOfBounds (rawHead head0 s.direction) = true then wrapPos (rawHead head0 s.direction)
      else rawHead head0 s.direction

/-- The `handleKeyPress` input mapper of `SnakeGame`: arrow keys change
direction unless exactly reversing, space toggles pause. -/
def handleKeyPress (key : String) (s : SnakeState) : SnakeState :=
  if s.gameStarted = false ∨ s.gameOver = true then s
  else if key = "ArrowUp" then
    if s.direction.y ≠ 1 then { s with direction := ⟨0, -1⟩ } else s
  else if key = "ArrowDown" then
    if s.direction.y ≠ -1 then { s with direction := ⟨0, 1⟩ } else s
  else if key = "ArrowLeft" then
    if s.direction.x ≠ 1 then { s with direction := ⟨-1, 0⟩ } else s
  else if key = "ArrowRight" then
    if s.direction.x ≠ -1 then { s with direction := ⟨1, 0⟩ } else s
  else if key = " " then { s with paused := !s.paused }
  else s

/-- The `startGame` click handler: one-segment snake, fixed food,
rightward direction, score zero, all lists cleared. -/
def startGame : SnakeState :=
  { snake := [⟨10, 10⟩]
    food := ⟨5, 5⟩
    direction := ⟨1, 0⟩
    gameStarted := true
    gameOver := false
    paused := false
    score := 0
    deathReason := none
    collisionPoint := none
    obstacles := []
    powerUps := []
    activePowerUps := [] }

end Snake

namespace Tetris

/-- Unfolding of the per-cell validity check into bounds and
conditional occupancy. -/
theorem cellFree_iff (board : Board) (bX bY : Int) :
    cellFree board bX bY = true ↔
      0 ≤ bX ∧ bX < (BOARD_WIDTH : Int) ∧ bY < (BOARD_HEIGHT : Int) ∧
      (0 ≤ bY → cellAt board bX bY = Cell.empty) := by
  unfold cellFree
  split_ifs with h1 h2
  · simp only [Bool.false_eq_true, false_iff]
    rintro ⟨ha, hb, hc, -⟩
    rcases h1 with h | h | h <;> omega
  · simp only [Bool.false_eq_true, false_iff]
    rintro ⟨-, -, -, hocc⟩
    exact h2.2 (hocc h2.1)
  · simp only [true_iff]
    push_neg at h1
    refine ⟨by omega, by omega, by omega, fun hy => ?_⟩
    by_contra hocc
    exact h2 ⟨hy, hocc⟩

/-- A shape-matrix lookup past the last row is 0. -/
theorem shapeCell_row_oob {shape : List (List Nat)} {yi xi : Nat}
    (h : shape.length ≤ yi) : shapeCell shape yi xi = 0 := by
  unfold shapeCell
  rw [List.getD_eq_default _ _ h]
  simp [List.getD]

/-- A shape-matrix lookup past the end of its row is 0. -/
theorem shapeCell_col_oob {shape : List (List Nat)} {yi xi : Nat}
    (h : (shape.getD yi []).length ≤ xi) : shapeCell shape yi xi = 0 :=
  List.getD_eq_default _ _ h

/-- C1: `isValidMove` accepts a placement exactly when every filled cell
of the shape lands at a horizontal coordinate in `[0, BOARD_WIDTH)`, a
vertical coordinate below `BOARD_HEIGHT`, and — whenever that vertical
coordinate is non-negative — on an empty board cell; in particular a
negative board row alone never rejects and is excluded from the
occupancy check, and any out-of-bounds or occupied filled cell
rejects. -/
theorem isValidMove_spec (board : Board) (shape : List (List Nat)) (newX newY : Int) :
    isValidMove board shape newX newY = true ↔
      ∀ yi xi : Nat, shapeCell shape yi xi ≠ 0 →
        0 ≤ newX + (xi : Int) ∧ newX + (xi : Int) < (BOARD_WIDTH : Int) ∧
        newY + (yi : Int) < (BOARD_HEIGHT : Int) ∧
        (0 ≤ newY + (yi : Int) →
          cellAt board (newX + (xi : Int)) (newY + (yi : Int)) = Cell.empty) := by
  unfold isValidMove
  simp only [List.all_eq_true, List.mem_range]
  constructor
  · intro h yi xi hv
    have hyi : yi < shape.length := by
      by_contra hy
      exact hv (shapeCell_row_oob (Nat.le_of_not_lt hy))
    have hxi : xi < (shape.getD yi []).length := by
      by_contra hx
      exact hv (shapeCell_col_oob (Nat.le_of_not_lt hx))
    have hcell := h yi hyi xi hxi
    rw [if_pos hv] at hcell
    exact (cellFree_iff board _ _).mp hcell
  · intro h yi _ xi _
    split_ifs with hv
    · exact (cellFree_iff board _ _).mpr (h yi xi hv)
    · rfl

/-- C6: applying the 90° clockwise rotation four times to any of the
seven canonical tetromino shapes returns the original shape matrix. -/
theorem rotate_four_id (t : Tetromino) :
    rotatePiece (rotatePiece (rotatePiece (rotatePiece (tetShape t)))) = tetShape t := by
  cases t <;> decide

/-- C7: on a board of full height in which no row is completely
occupied, the line-clear step returns the board unchanged and awards no
points. -/
theorem clearLines_no_full_rows (b : Board) (hlen : b.length = BOARD_HEIGHT)
    (hrows : ∀ row ∈ b, rowFull row = false) :
    clearLines b = (b, 0) := by
  have hcomp : completedLines b = [] := by
    unfold completedLines
    rw [List.filter_eq_nil_iff]
    intro y hy
    rw [List.mem_reverse, List.mem_range] at hy
    have hylt : y < b.length := by omega
    rw [List.getD_eq_getElem _ _ hylt]
    simp [hrows _ (List.getElem_mem hylt)]
  simp [clearLines, hcomp]

/-- Witness for C7 at the empty board. -/
theorem clearLines_no_full_rows_witness :
    clearLines createEmptyBoard = (createEmptyBoard, 0) :=
  clearLines_no_full_rows createEmptyBoard (by decide) (by decide)

/-- Counterexample to C3 as stated: four gravity steps from the freshly
spawned I-piece on the empty board do not lock anything — the board is
still empty and the piece is still the falling I-piece, now at
`y = 4`. -/
theorem four_gravity_steps_do_not_lock :
    ((moveDown (spawnPiece .I))^[4] tetrisInitI).board = createEmptyBoard ∧
    ((moveDown (spawnPiece .I))^[4] tetrisInitI).piece =
      some { spawnPiece .I with y := 4 } ∧
    ((moveDown (spawnPiece .I))^[4] tetrisInitI).score = 0 := by
  refine ⟨by decide, by decide, by decide⟩

/-- C3 (amended): fourteen gravity steps are needed; they lock the
I-piece into the bottom row of the empty 15×15 board (four cells at
columns 5..8 of row 14), and the score after locking is 0, since a
single I-piece cannot complete a 15-wide row. -/
theorem fourteen_gravity_steps_lock_score_zero :
    ((moveDown (spawnPiece .I))^[14] tetrisInitI).board =
      lockPiece createEmptyBoard { spawnPiece .I with y := 13 } ∧
    ((moveDown (spawnPiece .I))^[14] tetrisInitI).board ≠ createEmptyBoard ∧
    ((moveDown (spawnPiece .I))^[14] tetrisInitI).score = 0 := by
  refine ⟨by decide, by decide, by decide⟩

end Tetris

namespace Snake

/-- Componentwise characterisation of position equality. -/
theorem pos_eq_iff {a b : Pos} : a = b ↔ a.x = b.x ∧ a.y = b.y := by
  cases a; cases b; simp

/-- A tick whose guards pass and whose collision checks all fail
reduces to `commitMove` at the committed head. -/
theorem moveSnake_commit (o : SnakeOracle) (s : SnakeState)
    (hst : s.gameStarted = true) (hgo : s.gameOver = false) (hp : s.paused = false)
    (hd : ¬(s.direction.x = 0 ∧ s.direction.y = 0))
    (hne : s.snake ≠ []) (hl : lethal s = false) :
    moveSnake o s = commitMove o s (committedHead s) s.snake := by
  rcases hsn : s.snake with _ | ⟨head0, rest⟩
  · exact absurd hsn hne
  have hch : committedHead s =
      (if outOfBounds (rawHead head0 s.direction) = true
       then wrapPos (rawHead head0 s.direction) else rawHead head0 s.direction) := by
    simp only [committedHead, hsn]
  unfold moveSnake
  rw [if_neg (by simp [hst, hgo, hp, hd])]
  simp only [hsn]
  unfold moveSnakeBody moveSnakeAt
  rcases hinv : isInvincible s with _ | _
  · -- not invincible: the three collision tests are false by `hl`
    simp only [lethal, hsn, hinv, Bool.not_false, Bool.true_and,
      Bool.or_eq_false_iff] at hl
    obtain ⟨⟨hoob, hself⟩, hobs⟩ := hl
    have hite : (if outOfBounds (rawHead head0 s.direction) = true
        then wrapPos (rawHead head0 s.direction) else rawHead head0 s.direction) =
        rawHead head0 s.direction :=
      if_neg (fun h => by rw [h] at hoob; exact Bool.noConfusion hoob)
    rw [if_neg (fun h => by rw [h.1] at hoob; exact Bool.noConfusion hoob)]
    rw [hite]
    rw [if_neg (fun h => by rw [h.1] at hself; exact Bool.noConfusion hself)]
    rw [if_neg (fun h => by rw [h.1] at hobs; exact Bool.noConfusion hobs)]
    rw [hch, hite]
  · -- invincible: every death branch is disabled
    rw [if_neg (fun h => Bool.noConfusion h.2)]
    rw [if_neg (fun h => Bool.noConfusion h.2)]
    rw [if_neg (fun h => Bool.noConfusion h.2)]
    rw [hch]

/-- Head of the committed snake list. -/
theorem commit_snake_head? (o : SnakeOracle) (s : SnakeState) (head b : Pos) (l : List Pos) :
    (commitMove o s head (b :: l)).snake.head? = some head := by
  simp only [commitMove]
  split_ifs
  · rfl
  · rw [List.dropLast_cons₂]; rfl

/-- C2: on a committed tick (game running, direction set, no lethal
collision) the snake's segment count grows by exactly one when the new
head lands on the food, and stays exactly the same otherwise. -/
theorem snake_tick_length (o : SnakeOracle) (s : SnakeState)
    (hst : s.gameStarted = true) (hgo : s.gameOver = false) (hp : s.paused = false)
    (hd : ¬(s.direction.x = 0 ∧ s.direction.y = 0))
    (hne : s.snake ≠ []) (hl : lethal s = false) :
    (moveSnake o s).snake.length =
      s.snake.length + (if committedHead s = s.food then 1 else 0) := by
  rw [moveSnake_commit o s hst hgo hp hd hne hl]
  simp only [commitMove]
  by_cases hate : committedHead s = s.food
  · rw [if_pos hate, if_pos (pos_eq_iff.mp hate)]
    simp
  · rw [if_neg hate, if_neg (fun hc => hate (pos_eq_iff.mpr hc))]
    simp

/-- Fixed oracle used by the concrete witnesses (no spawns, fresh food
at (2,2)). -/
def oracle0 : SnakeOracle :=
  { newFood := ⟨2, 2⟩
    spawnObstacle := false
    obstacleCands := []
    spawnPowerUp := false
    powerUpKind := .slowMotion
    powerUpCands := [] }

/-- Witness for C2: one tick from the freshly started game. -/
theorem snake_tick_length_witness :
    (moveSnake oracle0 startGame).snake.length =
      startGame.snake.length + (if committedHead startGame = startGame.food then 1 else 0) :=
  snake_tick_length oracle0 startGame rfl rfl rfl (by decide) (by decide) (by decide)

/-- C8: with an active invincibility effect, a head at `(0, y)` moving
left wraps through the left wall to `(BOARD_SIZE - 1, y)` with the same
`y`, and the game does not transition to game over. -/
theorem invincible_left_wall_wraps (o : SnakeOracle) (s : SnakeState) (y : Int) (rest : List Pos)
    (hst : s.gameStarted = true) (hgo : s.gameOver = false) (hp : s.paused = false)
    (hsn : s.snake = ⟨0, y⟩ :: rest) (hdir : s.direction = ⟨-1, 0⟩)
    (hinv : isInvincible s = true) :
    (moveSnake o s).snake.head? = some ⟨(BOARD_SIZE : Int) - 1, y⟩ ∧
    (moveSnake o s).gameOver = false := by
  have hd : ¬(s.direction.x = 0 ∧ s.direction.y = 0) := by
    rw [hdir]
    intro h
    exact absurd h.1 (by decide)
  have hl : lethal s = false := by
    unfold lethal
    simp [hinv]
  rw [moveSnake_commit o s hst hgo hp hd (by rw [hsn]; simp) hl]
  have hraw : rawHead (⟨0, y⟩ : Pos) s.direction = ⟨-1, y⟩ := by
    rw [hdir]
    simp [rawHead]
  have hoob : outOfBounds (⟨-1, y⟩ : Pos) = true := by
    simp [outOfBounds]
  have hch : committedHead s = ⟨(BOARD_SIZE : Int) - 1, y⟩ := by
    simp only [committedHead, hsn, hraw, hoob, if_true]
    simp [wrapPos, BOARD_SIZE]
  rw [hch, hsn]
  exact ⟨commit_snake_head? o s _ _ _, hgo⟩

/-- Concrete witness state for C8: invincible snake hugging the left
wall and heading left. -/
def wrapState : SnakeState :=
  { startGame with
      snake := [⟨0, 7⟩]
      direction := ⟨-1, 0⟩
      activePowerUps := [⟨.invincibility, 5⟩] }

/-- Witness for C8 at `wrapState`. -/
theorem invincible_left_wall_wraps_witness :
    (moveSnake oracle0 wrapState).snake.head? = some ⟨(BOARD_SIZE : Int) - 1, 7⟩ ∧
    (moveSnake oracle0 wrapState).gameOver = false :=
  invincible_left_wall_wraps oracle0 wrapState 7 [] rfl rfl rfl rfl rfl (by decide)

/-- C9: without invincibility, a move whose new head lands on the
current tail segment (which the full pre-move body still contains) is a
fatal self-collision: the game transitions to game over with reason
`self-collision`, even though the tail cell would have been vacated by
the tail pop of the same tick, and the snake list is returned
unchanged. -/
theorem tail_cell_self_collision (o : SnakeOracle) (s : SnakeState)
    (head0 : Pos) (rest : List Pos)
    (hst : s.gameStarted = true) (hgo : s.gameOver = false) (hp : s.paused = false)
    (hd : ¬(s.direction.x = 0 ∧ s.direction.y = 0))
    (hsn : s.snake = head0 :: rest)
    (hinv : isInvincible s = false)
    (hoob : outOfBounds (rawHead head0 s.direction) = false)
    (htail : s.snake.getLast? = some (rawHead head0 s.direction))
    (_hnf : rawHead head0 s.direction ≠ s.food) :
    (moveSnake o s).gameOver = true ∧
    (moveSnake o s).deathReason = some "self-collision" ∧
    (moveSnake o s).snake = s.snake := by
  have hmem : rawHead head0 s.direction ∈ head0 :: rest := by
    rw [← hsn]
    exact List.mem_of_getLast?_eq_some htail
  have hany : ((head0 :: rest).any fun seg =>
      seg.x = (rawHead head0 s.direction).x ∧ seg.y = (rawHead head0 s.direction).y) = true := by
    rw [List.any_eq_true]
    exact ⟨_, hmem, by simp⟩
  unfold moveSnake
  rw [if_neg (by simp [hst, hgo, hp, hd])]
  simp only [hsn]
  unfold moveSnakeBody
  rw [if_neg (fun h => by rw [h.1] at hoob; exact Bool.noConfusion hoob)]
  have hite : (if outOfBounds (rawHead head0 s.direction) = true
      then wrapPos (rawHead head0 s.direction) else rawHead head0 s.direction) =
      rawHead head0 s.direction :=
    if_neg (fun h => by rw [h] at hoob; exact Bool.noConfusion hoob)
  rw [hite]
  unfold moveSnakeAt
  rw [if_pos ⟨hany, hinv⟩]
  exact ⟨rfl, rfl, hsn⟩

/-- Concrete witness state for C9: a 4-segment loop about to bite its
own tail cell. -/
def tailState : SnakeState :=
  { startGame with
      snake := [⟨5, 5⟩, ⟨5, 4⟩, ⟨4, 4⟩, ⟨4, 5⟩]
      direction := ⟨-1, 0⟩
      food := ⟨1, 1⟩ }

/-- Witness for C9 at `tailState`. -/
theorem tail_cell_self_collision_witness :
    (moveSnake oracle0 tailState).gameOver = true ∧
    (moveSnake oracle0 tailState).deathReason = some "self-collision" ∧
    (moveSnake oracle0 tailState).snake = tailState.snake :=
  tail_cell_self_collision oracle0 tailState ⟨5, 5⟩ [⟨5, 4⟩, ⟨4, 4⟩, ⟨4, 5⟩]
    rfl rfl rfl (by decide) rfl (by decide) (by decide) (by decide) (by decide)

/-- C10 (amended): a lethal tick returns the snake list unchanged and
sets only the game-over flag, the death reason and the collision point
among the snake-related fields — score, food and direction are
untouched; the obstacle, power-up and active-effect lists still undergo
their normal per-tick aging, spawning and decay. -/
theorem lethal_tick_keeps_body (o : SnakeOracle) (s : SnakeState)
    (hst : s.gameStarted = true) (hgo : s.gameOver = false) (hp : s.paused = false)
    (hd : ¬(s.direction.x = 0 ∧ s.direction.y = 0))
    (hl : lethal s = true) :
    (moveSnake o s).snake = s.snake ∧
    (moveSnake o s).gameOver = true ∧
    (moveSnake o s).deathReason.isSome = true ∧
    (moveSnake o s).collisionPoint.isSome = true ∧
    (moveSnake o s).score = s.score ∧
    (moveSnake o s).food = s.food ∧
    (moveSnake o s).direction = s.direction := by
  rcases hsn : s.snake with _ | ⟨head0, rest⟩
  · exfalso
    simp only [lethal, hsn, Bool.and_false] at hl
    exact Bool.noConfusion hl
  · have hl' := hl
    simp only [lethal, hsn, Bool.and_eq_true, Bool.not_eq_true'] at hl'
    obtain ⟨hinv, hdisj⟩ := hl'
    unfold moveSnake
    rw [if_neg (by simp [hst, hgo, hp, hd])]
    simp only [hsn]
    unfold moveSnakeBody
    by_cases hoob : outOfBounds (rawHead head0 s.direction) = true
    · rw [if_pos ⟨hoob, hinv⟩]
      exact ⟨hsn, rfl, rfl, rfl, rfl, rfl, rfl⟩
    · rw [if_neg (fun h => hoob h.1)]
      have hite : (if outOfBounds (rawHead head0 s.direction) = true
          then wrapPos (rawHead head0 s.direction) else rawHead head0 s.direction) =
          rawHead head0 s.direction := if_neg hoob
      rw [hite]
      unfold moveSnakeAt
      by_cases hself : ((head0 :: rest).any fun seg =>
          seg.x = (rawHead head0 s.direction).x ∧ seg.y = (rawHead head0 s.direction).y) = true
      · rw [if_pos ⟨hself, hinv⟩]
        exact ⟨hsn, rfl, rfl, rfl, rfl, rfl, rfl⟩
      · simp only [Bool.or_eq_true] at hdisj
        rcases hdisj with (hA | hB) | hC
        · exact absurd hA hoob
        · exact absurd hB hself
        · rw [if_neg (fun h => hself h.1), if_pos ⟨hC, hinv⟩]
          exact ⟨hsn, rfl, rfl, rfl, rfl, rfl, rfl⟩

/-- Concrete lethal state for C10: about to hit the left wall, with one
obstacle on the board. -/
def lethalState : SnakeState :=
  { startGame with
      snake := [⟨0, 5⟩]
      direction := ⟨-1, 0⟩
      obstacles := [⟨3, 3, 0⟩] }

/-- Witness for the amended C10 at `lethalState`. -/
theorem lethal_tick_keeps_body_witness :
    (moveSnake oracle0 lethalState).snake = lethalState.snake ∧
    (moveSnake oracle0 lethalState).gameOver = true ∧
    (moveSnake oracle0 lethalState).deathReason.isSome = true ∧
    (moveSnake oracle0 lethalState).collisionPoint.isSome = true ∧
    (moveSnake oracle0 lethalState).score = lethalState.score ∧
    (moveSnake oracle0 lethalState).food = lethalState.food ∧
    (moveSnake oracle0 lethalState).direction = lethalState.direction :=
  lethal_tick_keeps_body oracle0 lethalState rfl rfl rfl (by decide) (by decide)

/-- Counterexample to C10 as stated: on this lethal tick the snake list
is indeed unchanged and the game-over flag set, but more than the
game-over flag, death reason and collision point changes — the obstacle
list is aged too. -/
theorem lethal_tick_changes_obstacles :
    (moveSnake oracle0 lethalState).gameOver = true ∧
    (moveSnake oracle0 lethalState).snake = lethalState.snake ∧
    (moveSnake oracle0 lethalState).obstacles ≠ lethalState.obstacles := by
  refine ⟨by decide, by decide, by decide⟩

end Snake

namespace Snake

/-- Obstacle list of a tick outcome: untouched on a skipped tick, and
otherwise exactly the aged/spawned list of `obstaclesStep`. -/
theorem moveSnake_obstacles_cases (o : SnakeOracle) (s : SnakeState) :
    (moveSnake o s).obstacles = s.obstacles ∨
    (moveSnake o s).obstacles = obstaclesStep o s := by
  unfold moveSnake
  split_ifs with h
  · exact Or.inl rfl
  · rcases hsn : s.snake with _ | ⟨head0, rest⟩
    · simp [hsn]
    · simp only [hsn]
      right
      unfold moveSnakeBody moveSnakeAt
      split_ifs <;> rfl

/-- Membership in the aged obstacle list comes from a pre-tick
obstacle. -/
theorem mem_aged_obstacles {l : List Obstacle} {ob : Obstacle}
    (h : ob ∈ (l.map fun o2 => { o2 with age := o2.age + 1 }).filter
      fun o2 => o2.age < OBSTACLE_LIFETIME) :
    ∃ prev ∈ l, ob = { prev with age := prev.age + 1 } := by
  obtain ⟨prev, hprev, heq⟩ := List.mem_map.mp (List.mem_filter.mp h).1
  exact ⟨prev, hprev, heq.symm⟩

/-- An obstacle in the post-tick list is either aged from the pre-tick
list or the output of `generateObstacle`. -/
theorem mem_obstaclesStep (o : SnakeOracle) (s : SnakeState) (ob : Obstacle)
    (h : ob ∈ obstaclesStep o s) :
    (∃ prev ∈ s.obstacles, ob = { prev with age := prev.age + 1 }) ∨
    generateObstacle o.obstacleCands s.snake s.food s.obstacles s.powerUps = some ob := by
  simp only [obstaclesStep] at h
  split_ifs at h
  · rcases hgen : generateObstacle o.obstacleCands s.snake s.food s.obstacles s.powerUps
      with _ | newOb
    · rw [hgen] at h
      exact Or.inl (mem_aged_obstacles h)
    · rw [hgen] at h
      rcases List.mem_append.mp h with haged | hnew
      · exact Or.inl (mem_aged_obstacles haged)
      · rw [List.mem_singleton] at hnew
        exact Or.inr (congrArg some hnew.symm)
  · exact Or.inl (mem_aged_obstacles h)

/-- Every obstacle produced by `generateObstacle` is fresh and at
Chebyshev distance strictly greater than 2 from the snake head that the
generator saw. -/
theorem generateObstacle_chebyshev {cands snake : List Pos} {food : Pos}
    {obstacles : List Obstacle} {powerUps : List PowerUp} {ob : Obstacle}
    (h : generateObstacle cands snake food obstacles powerUps = some ob) :
    ob.age = 0 ∧ 2 < chebyshev (snake.headD ⟨0, 0⟩) ⟨ob.x, ob.y⟩ := by
  rcases snake with _ | ⟨head, tl⟩
  · exact absurd h (by simp [generateObstacle])
  · simp only [generateObstacle, Option.map_eq_some'] at h
    obtain ⟨c, hfind, hc⟩ := h
    have hvalid := List.find?_some hfind
    simp only [isValidObstaclePos, Bool.not_eq_true', Bool.or_eq_false_iff,
      decide_eq_false_iff_not] at hvalid
    obtain ⟨⟨-, hcheb⟩, -⟩ := hvalid
    subst hc
    refine ⟨rfl, ?_⟩
    simp only [List.headD_cons, chebyshev]
    omega

/-- C4: every obstacle present after a tick is either carried over
(aged) from the previous tick or was spawned this tick by
`generateObstacle`, whose validity filter rejects every candidate at
Chebyshev distance at most 2 from the current snake head — so a freshly
spawned obstacle is always at Chebyshev distance strictly greater
than 2 from the head at spawn time. -/
theorem obstacle_spawn_distance (o : SnakeOracle) (s : SnakeState) (ob : Obstacle)
    (h : ob ∈ (moveSnake o s).obstacles) :
    ob ∈ s.obstacles ∨
    (∃ prev ∈ s.obstacles, ob = { prev with age := prev.age + 1 }) ∨
    (ob.age = 0 ∧ 2 < chebyshev (s.snake.headD ⟨0, 0⟩) ⟨ob.x, ob.y⟩) := by
  rcases moveSnake_obstacles_cases o s with hc | hc
  · rw [hc] at h
    exact Or.inl h
  · rw [hc] at h
    rcases mem_obstaclesStep o s ob h with haged | hgen
    · exact Or.inr (Or.inl haged)
    · exact Or.inr (Or.inr (generateObstacle_chebyshev hgen))

/-- Concrete state for the C4 witness: a running game with one aged
obstacle and no spawn this tick. -/
def agedState : SnakeState :=
  { startGame with obstacles := [⟨3, 3, 0⟩] }

/-- Witness for C4 at `agedState`: the surviving obstacle is the aged
copy of the pre-tick one. -/
theorem obstacle_spawn_distance_witness :
    (⟨3, 3, 1⟩ : Obstacle) ∈ agedState.obstacles ∨
    (∃ prev ∈ agedState.obstacles, (⟨3, 3, 1⟩ : Obstacle) = { prev with age := prev.age + 1 }) ∨
    ((⟨3, 3, 1⟩ : Obstacle).age = 0 ∧
      2 < chebyshev (agedState.snake.headD ⟨0, 0⟩) ⟨(3 : Int), (3 : Int)⟩) :=
  obstacle_spawn_distance oracle0 agedState ⟨3, 3, 1⟩ (by decide)

end Snake

namespace Tetris

/-- Locking and line-clearing only add to the score. -/
theorem placePiece_score_le (next : Piece) (s : TetrisState) :
    s.score ≤ (placePiece next s).score := by
  rcases hp : s.piece with _ | p <;> simp only [placePiece, hp]
  · exact le_refl _
  · split_ifs <;> exact Nat.le_add_right _ _

/-- A gravity step never decreases the score. -/
theorem moveDown_score_le (next : Piece) (s : TetrisState) :
    s.score ≤ (moveDown next s).score := by
  rcases hp : s.piece with _ | p <;> simp only [moveDown, hp]
  · exact le_refl _
  · split_ifs
    · exact le_refl _
    · exact le_refl _
    · exact placePiece_score_le next s

/-- Tetris input handling never decreases the score. -/
theorem handleKeyPress_score_le (next : Piece) (key : String) (s : TetrisState) :
    s.score ≤ (handleKeyPress next key s).score := by
  rcases hp : s.piece with _ | p <;> simp only [handleKeyPress, hp]
  · exact le_refl _
  · split_ifs <;> first
      | exact le_refl _
      | exact moveDown_score_le next s

end Tetris

namespace Snake

/-- A Snake tick never decreases the score. -/
theorem moveSnake_score_le (o : SnakeOracle) (s : SnakeState) :
    s.score ≤ (moveSnake o s).score := by
  unfold moveSnake
  split_ifs with h
  · exact le_refl _
  · rcases hsn : s.snake with _ | ⟨head0, rest⟩ <;> simp only [hsn]
    · exact le_refl _
    · simp only [moveSnakeBody, moveSnakeAt, commitMove, dieWith]
      split_ifs <;> first
        | exact le_refl _
        | exact Nat.le_add_right _ _

/-- Snake input handling never touches the score. -/
theorem handleKeyPress_score_eq (key : String) (s : SnakeState) :
    (handleKeyPress key s).score = s.score := by
  unfold handleKeyPress
  split_ifs <;> rfl

end Snake

/-- C5: every operation of both engines — Snake tick, Snake input
handling, Tetris gravity step, piece lock with line clear, Tetris input
handling — leaves the score unchanged or increases it, and only the
explicit restart operations produce the score 0 of a fresh game. -/
theorem score_monotone (o : Snake.SnakeOracle) (s : Snake.SnakeState)
    (t : Tetris.TetrisState) (next : Tetris.Piece) (key : String) :
    s.score ≤ (Snake.moveSnake o s).score ∧
    s.score ≤ (Snake.handleKeyPress key s).score ∧
    t.score ≤ (Tetris.moveDown next t).score ∧
    t.score ≤ (Tetris.placePiece next t).score ∧
    t.score ≤ (Tetris.handleKeyPress next key t).score ∧
    Snake.startGame.score = 0 ∧
    Tetris.restartGame.score = 0 :=
  ⟨Snake.moveSnake_score_le o s,
   le_of_eq (Snake.handleKeyPress_score_eq key s).symm,
   Tetris.moveDown_score_le next t,
   Tetris.placePiece_score_le next t,
   Tetris.handleKeyPress_score_le next key t,
   rfl, rfl⟩
